import Mathlib

/-!
Shallow embedding of the `quantools` segmentation data model and statistics
pipeline (`quantools/segmentinfo/segmentinfo.py`, `quantools/segmentinfo/unit.py`,
`quantools/visualization/utils.py`, `quantools/metrics/metrics.py`,
`quantools/metrics/metrics_adv.py`).

Modelling conventions:
- numpy arrays are flattened to Lean lists (row-major order); multi-dimensional
  shape is irrelevant to the embedded operations (sum, count, boolean selection).
- numpy floats are exact rationals; a float result that is NaN is the explicit
  value `NpVal.nan`, and a square root (from `np.std`) is kept symbolically as
  `NpVal.sqrt q` (the nonnegative real whose square is `q`), since no claim
  inspects its numeric magnitude.
- Python exceptions are `Except PyErr`; fallible operations return `Except`.
- Python dicts (which preserve insertion order) are association lists.
- A numpy mask array of arbitrary dtype is a `List Int` (a boolean mask is the
  0/1-valued special case, since numpy bools enter `np.sum` as 0/1); the
  `maps` mapping of `TissueROI.create_from` is a lookup function where `none`
  stands for the caught `KeyError`/`TypeError` (key absent, or the maps object
  not indexable).
-/

namespace Quantools

instance exceptDecEq {ε α : Type} [DecidableEq ε] [DecidableEq α] :
    DecidableEq (Except ε α)
  | .ok x, .ok y =>
    if h : x = y then .isTrue (by rw [h]) else .isFalse (by simp [h])
  | .ok _, .error _ => .isFalse (by simp)
  | .error _, .ok _ => .isFalse (by simp)
  | .error e, .error f =>
    if h : e = f then .isTrue (by rw [h]) else .isFalse (by simp [h])

/-- Python `str.lower()` (character-wise lowercasing; the tissue names at play
are ASCII, where this agrees with `String.toLower`). -/
def pyLower (s : String) : String := String.mk (s.data.map Char.toLower)

/-- A numpy floating-point result: an exact rational, a symbolic square root
of a rational (produced by `np.std`), or NaN. -/
inductive NpVal where
  | num (q : ℚ)
  | sqrt (q : ℚ)
  | nan
deriving DecidableEq

/-- Python exceptions raised by the embedded code. -/
inductive PyErr where
  | keyError (key : String)
  | indexError
  | valueError
  | attributeError
  | stopIteration
deriving DecidableEq

/-- `quantools.segmentinfo.unit.Unit`: closed enumeration of measurement units. -/
inductive Unit where
  | seconds
  | milliseconds
  | none
deriving DecidableEq

/-- `Unit(s)` enum construction from a string: ValueError on unrecognized input. -/
def Unit.fromString : String → Except PyErr Unit
  | "seconds" => .ok .seconds
  | "milliseconds" => .ok .milliseconds
  | "none" => .ok Unit.none
  | _ => .error .valueError

/-- The `unit : str | Unit` argument of `TissueROI.create_from`. -/
inductive UnitSpec where
  | str (s : String)
  | unit (u : Unit)
deriving DecidableEq

/-- `if not isinstance(unit, Unit): unit = Unit(unit)` in `TissueROI.create_from`. -/
def resolveUnit : UnitSpec → Except PyErr Unit
  | .unit u => .ok u
  | .str s => Unit.fromString s

/-- `quantools.segmentinfo.segmentinfo.ParameterROI`. -/
structure ParameterROI where
  name : String
  values : Option (List ℚ)
  unit : Unit
deriving DecidableEq

/-- `quantools.segmentinfo.segmentinfo.TissueROI` (fields only; `volume` is
assigned in `__attrs_post_init__`, see `mkTissueROI`). -/
structure TissueROI where
  name : String
  parameters : List (String × ParameterROI)
  mask : List Int
  volume : Int
  color : Option String
deriving DecidableEq

/-- `TissueROI.__init__` followed by `__attrs_post_init__`:
`self.volume = np.sum(self.mask)` (entry sum of the mask array). -/
def mkTissueROI (name : String) (parameters : List (String × ParameterROI))
    (mask : List Int) (color : Option String) : TissueROI :=
  ⟨name, parameters, mask, mask.sum, color⟩

/-- Python-dict key lookup on an association list (first matching key). -/
def lookupA {α : Type} (d : List (String × α)) (k : String) : Option α :=
  (d.find? (fun kv => kv.1 == k)).map Prod.snd

/-- Result values of `TissueROI.__getitem__`. -/
inductive ItemValue where
  | param (p : ParameterROI)
  | mask (m : List Int)
  | name (s : String)
  | volume (v : Int)
deriving DecidableEq

/-- `TissueROI.__getitem__`: builds `{**self.parameters, 'mask': …, 'name': …,
'volume': …}` and indexes it.  In a Python dict literal the later entries win,
so the three special keys override any identically-named parameter key. -/
def TissueROI.getitem (t : TissueROI) (k : String) : Except PyErr ItemValue :=
  if k = "mask" then .ok (.mask t.mask)
  else if k = "name" then .ok (.name t.name)
  else if k = "volume" then .ok (.volume t.volume)
  else
    match lookupA t.parameters k with
    | some p => .ok (.param p)
    | Option.none => .error (.keyError k)

/-- `TissueROI.__iter__`: `iter(self.parameters.values())` in insertion order. -/
def TissueROI.iterParams (t : TissueROI) : List ParameterROI :=
  t.parameters.map Prod.snd

/-- numpy bool scalars are 0/1 under arithmetic (`np.sum` of a bool mask). -/
def boolToInt (b : Bool) : Int := if b then 1 else 0

/-- numpy boolean-mask indexing `arr[mask]`: the entries of `arr` at the true
positions of `mask`, in array iteration order (the two arrays share a shape). -/
def boolSelect (arr : List ℚ) (mask : List Bool) : List ℚ :=
  (arr.zip mask).filterMap (fun p => if p.2 then some p.1 else Option.none)

/-- The extraction loop of `TissueROI.create_from`: for each canonical
`(parameter_name, parameter_unit)` in order, try `maps[parameter_name][mask]`;
a `KeyError`/`TypeError` (modelled as `none`) skips the parameter. -/
def extractParameters (maps : String → Option (List ℚ)) (mask : List Bool) :
    List (String × Unit) → List (String × ParameterROI)
  | [] => []
  | (pname, punit) :: rest =>
    match maps pname with
    | Option.none => extractParameters maps mask rest
    | some arr =>
        (pname, ⟨pname, some (boolSelect arr mask), punit⟩) ::
          extractParameters maps mask rest

/-- `TissueROI.create_from`. -/
def TissueROI.createFrom (name : String) (maps : String → Option (List ℚ))
    (mask : List Bool) (unitSpec : UnitSpec) (color : Option String) :
    Except PyErr TissueROI :=
  match resolveUnit unitSpec with
  | .error e => .error e
  | .ok u =>
      .ok (mkTissueROI name
            (extractParameters maps mask
              [("T1", u), ("T2", u), ("M0", Unit.none), ("IP", Unit.none)])
            (mask.map boolToInt) color)

/-- `SLICER_COLOR_SPECIFICATION` from `quantools/visualization/utils.py`. -/
def slicerColorSpecification : List (String × String) :=
  [("cochlea", "#80ae80"), ("vestibulum", "#f1d691"),
   ("canals", "#b17a65"), ("nerve", "#6fb8d2")]

/-- `get_canonical_tissue_color`: case-insensitive lookup; on a miss a
non-fatal warning is emitted (a side effect outside the value semantics)
and `None` is returned. -/
def getCanonicalTissueColor (name : String) : Option String :=
  lookupA slicerColorSpecification (pyLower name)

/-- The `sort` literal of `Segmentation`. -/
inductive SortMode where
  | none
  | increasing
  | decreasing
deriving DecidableEq

/-- `quantools.segmentinfo.segmentinfo.Segmentation` (fields only). -/
structure Segmentation where
  tissues : List TissueROI
  sort : SortMode
deriving DecidableEq

/-- The key order used by `sorted(self.tissues, key=lambda tissue: tissue.volume)`. -/
def byVolume (a b : TissueROI) : Prop := a.volume ≤ b.volume

instance : DecidableRel byVolume := fun a b => Int.decLe a.volume b.volume

instance : IsTotal TissueROI byVolume := ⟨fun a b => Int.le_total a.volume b.volume⟩

instance : IsTrans TissueROI byVolume := ⟨fun _ _ _ h h2 => le_trans h h2⟩

/-- `Segmentation.__init__` followed by `__attrs_post_init__`: `none` keeps the
given order; otherwise a stable ascending sort by volume (Python `sorted` is
stable; `List.insertionSort` is its stable counterpart here), reversed for
`decreasing`. -/
def mkSegmentation (tissues : List TissueROI) (sort : SortMode) : Segmentation :=
  match sort with
  | .none => ⟨tissues, sort⟩
  | .increasing => ⟨tissues.insertionSort byVolume, sort⟩
  | .decreasing => ⟨(tissues.insertionSort byVolume).reverse, sort⟩

/-- Python list index adjustment: a negative index counts from the end. -/
def pyIndexAdjust (n : Nat) (i : Int) : Int :=
  if i < 0 then i + n else i

/-- Python list indexing `l[i]` for `int` indices: negative indices count from
the end; out-of-range raises IndexError. -/
def pyListGet {α : Type} (l : List α) (i : Int) : Except PyErr α :=
  if h : 0 ≤ pyIndexAdjust l.length i ∧ pyIndexAdjust l.length i < (l.length : Int) then
    .ok (l.get ⟨(pyIndexAdjust l.length i).toNat, by omega⟩)
  else
    .error .indexError

/-- The integer branch of `Segmentation.__getitem__`: `self.tissues[item]`. -/
def Segmentation.getitemInt (s : Segmentation) (i : Int) : Except PyErr TissueROI :=
  pyListGet s.tissues i

/-- The loop of `Segmentation.create_from`: one `TissueROI.create_from` per
`(tissue_name, mask)` entry, with the canonical color lookup for each name. -/
def tissuesFrom (params : String → Option (List ℚ)) :
    List (String × List Bool) → Except PyErr (List TissueROI)
  | [] => .ok []
  | (tn, m) :: rest =>
    match TissueROI.createFrom tn params m (.str "seconds") (getCanonicalTissueColor tn) with
    | .error e => .error e
    | .ok t =>
      match tissuesFrom params rest with
      | .error e => .error e
      | .ok ts => .ok (t :: ts)

/-- `Segmentation.create_from` (default sort mode `decreasing`). -/
def Segmentation.createFrom (parameters : String → Option (List ℚ))
    (masks : List (String × List Bool)) : Except PyErr Segmentation :=
  match tissuesFrom parameters masks with
  | .error e => .error e
  | .ok tissues => .ok (mkSegmentation tissues .decreasing)

/-! ### Statistics (`quantools/metrics/metrics.py` and `metrics_adv.py`)

`metrics.py` uses `np` and `Mapping` without importing them, so calling any of
its functions raises `NameError` at runtime; the embedding models the evident
numpy semantics of the function bodies. -/

/-- `np.mean`: NaN on an empty array (with a RuntimeWarning), else the
arithmetic mean. -/
def np_mean (l : List ℚ) : NpVal :=
  match l with
  | [] => .nan
  | _ :: _ => .num (l.sum / l.length)

/-- `np.std(data, ddof=1)`: NaN (with a RuntimeWarning) when fewer than two
elements, else the sample standard deviation with Bessel's correction. -/
def np_std_ddof1 (l : List ℚ) : NpVal :=
  if l.length ≤ 1 then .nan
  else
    .sqrt (((l.map (fun x => (x - l.sum / l.length) ^ 2)).sum) / ((l.length : ℚ) - 1))

/-- `np.max`: ValueError on an empty array (zero-size reduction has no
identity), else the maximum. -/
def np_max (l : List ℚ) : Except PyErr ℚ :=
  match l with
  | [] => .error .valueError
  | x :: xs => .ok (xs.foldl max x)

/-- `np.min`: ValueError on an empty array, else the minimum. -/
def np_min (l : List ℚ) : Except PyErr ℚ :=
  match l with
  | [] => .error .valueError
  | x :: xs => .ok (xs.foldl min x)

/-- Ascending sort of the data, as numpy's median/quantile machinery uses. -/
def np_sort (l : List ℚ) : List ℚ :=
  l.insertionSort (· ≤ ·)

/-- `np.median`: NaN on an empty array (with a RuntimeWarning); the middle
element for odd length, the mean of the two middle elements for even length. -/
def np_median (l : List ℚ) : NpVal :=
  match l with
  | [] => .nan
  | _ :: _ =>
    let s := np_sort l
    let n := l.length
    if n % 2 = 1 then .num (s.getD (n / 2) 0)
    else .num ((s.getD (n / 2 - 1) 0 + s.getD (n / 2) 0) / 2)

/-- `np.quantile(data, q)` with the default linear interpolation between the
two closest ranks.  The empty branch is unreachable in `compute_statistic`
(`np.max` raises first); it is modelled as NaN. -/
def np_quantile (q : ℚ) (l : List ℚ) : NpVal :=
  match l with
  | [] => .nan
  | _ :: _ =>
    let s := np_sort l
    let pos : ℚ := q * ((l.length : ℚ) - 1)
    let i : ℕ := pos.floor.toNat
    let lo := s.getD i 0
    let hi := s.getD (i + 1) lo
    .num (lo + (pos - (i : ℚ)) * (hi - lo))

/-- `metrics.py: compute_statistic`.  The dict literal evaluates its values in
order mean, stdev, max, …, so on an empty array the NaN means/stdevs are
computed first and then `np.max` raises ValueError. -/
def compute_statistic (data : List ℚ) : Except PyErr (List (String × NpVal)) :=
  match np_max data with
  | .error e => .error e
  | .ok mx =>
    match np_min data with
    | .error e => .error e
    | .ok mn =>
      .ok [("mean", np_mean data), ("stdev", np_std_ddof1 data), ("max", .num mx),
           ("min", .num mn), ("median", np_median data),
           ("q_95", np_quantile (95 / 100) data), ("q_05", np_quantile (5 / 100) data)]

/-- total variant of `np.max` used by the spec-modelled statistics: NaN on
degenerate input instead of an error. -/
def np_max_total (l : List ℚ) : NpVal :=
  match l with
  | [] => .nan
  | x :: xs => .num (xs.foldl max x)

/-- total variant of `np.min` used by the spec-modelled statistics. -/
def np_min_total (l : List ℚ) : NpVal :=
  match l with
  | [] => .nan
  | x :: xs => .num (xs.foldl min x)

/-- Modelled from the spec: `compute_statistical_parameters` is imported by
`metrics_adv.py` from `quantools.metrics.metrics_raw`, a module absent from
the sources.  Spec §4.4 defines it as the descriptive statistics
mean, stdev (Bessel), max, min, median, q_95, q_05 over a values array, with
degenerate (empty / single-element) inputs yielding NaN entries rather than an
error. -/
def compute_statistical_parameters (data : List ℚ) : List (String × NpVal) :=
  [("mean", np_mean data), ("stdev", np_std_ddof1 data), ("max", np_max_total data),
   ("min", np_min_total data), ("median", np_median data),
   ("q_95", np_quantile (95 / 100) data), ("q_05", np_quantile (5 / 100) data)]

/-- An entry of the per-tissue statistics dict: either a per-parameter
statistics dict or the integer volume. -/
inductive StatsEntry where
  | stats (s : List (String × NpVal))
  | vol (n : Nat)
deriving DecidableEq

/-- Python `dict.update`: existing keys keep their position but take the new
value; new keys are appended in order. -/
def dictUpdate {α : Type} (d e : List (String × α)) : List (String × α) :=
  d.map (fun kv =>
    match lookupA e kv.1 with
    | some v => (kv.1, v)
    | Option.none => kv)
  ++ e.filter (fun kv => (lookupA d kv.1).isNone)

/-- `metrics_adv.py: compute_volume`: `next(iter(tissue))` raises
StopIteration when the parameters mapping is empty; `parameter.values.size`
raises AttributeError when `values` is `None`. -/
def compute_volume (tissue : TissueROI) : Except PyErr (List (String × StatsEntry)) :=
  match tissue.parameters with
  | [] => .error .stopIteration
  | (_, p) :: _ =>
    match p.values with
    | Option.none => .error .attributeError
    | some vs => .ok [("volume", .vol vs.length)]

/-- The loop of `compute_tissue_statistics`: one statistics dict per parameter,
keyed by `parameter.name`, in iteration order.  Feeding a `None` values array
to the numpy statistics is modelled as an AttributeError. -/
def paramStatistics : List (String × ParameterROI) → Except PyErr (List (String × StatsEntry))
  | [] => .ok []
  | kp :: rest =>
    match kp.2.values with
    | Option.none => .error .attributeError
    | some vs =>
      match paramStatistics rest with
      | .error e => .error e
      | .ok tail => .ok ((kp.2.name, .stats (compute_statistical_parameters vs)) :: tail)

/-- `metrics_adv.py: compute_tissue_statistics`. -/
def compute_tissue_statistics (tissue : TissueROI) :
    Except PyErr (List (String × List (String × StatsEntry))) :=
  match paramStatistics tissue.parameters with
  | .error e => .error e
  | .ok pstats =>
    match compute_volume tissue with
    | .error e => .error e
    | .ok volEntry => .ok [(tissue.name, dictUpdate pstats volEntry)]

/-- The `Segmentation | TissueROI` union accepted by
`metrics_adv.py: compute_statistics`. -/
inductive StatsInput where
  | tissue (t : TissueROI)
  | seg (s : Segmentation)

/-- The segmentation loop of `compute_statistics`:
`statistics.update(compute_tissue_statistics(tissue))` per tissue. -/
def segStatistics : List TissueROI → List (String × List (String × StatsEntry)) →
    Except PyErr (List (String × List (String × StatsEntry)))
  | [], acc => .ok acc
  | t :: rest, acc =>
    match compute_tissue_statistics t with
    | .error e => .error e
    | .ok st => segStatistics rest (dictUpdate acc st)

/-- `metrics_adv.py: compute_statistics`: dispatch on the runtime type. -/
def compute_statistics : StatsInput → Except PyErr (List (String × List (String × StatsEntry)))
  | .tissue t => compute_tissue_statistics t
  | .seg s => segStatistics s.tissues []

/-- Projection used to state claims about the statistics output: the entry at
key "volume" of the per-tissue dict stored under `tname`, when the computation
succeeded. -/
def volumeEntryOf (r : Except PyErr (List (String × List (String × StatsEntry))))
    (tname : String) : Option StatsEntry :=
  match r with
  | .error _ => Option.none
  | .ok out => (lookupA out tname).bind (fun body => lookupA body "volume")

/-! ### Helper lemmas -/

theorem lookupA_cons {α : Type} (kv : String × α) (d : List (String × α)) (k : String) :
    lookupA (kv :: d) k = if kv.1 = k then some kv.2 else lookupA d k := by
  by_cases h : kv.1 = k
  · simp [lookupA, List.find?, h]
  · have hb : (kv.1 == k) = false := beq_eq_false_iff_ne.mpr h
    simp [lookupA, List.find?, hb, h]

theorem lookupA_isSome {α : Type} (d : List (String × α)) (k : String) :
    (lookupA d k).isSome = true ↔ k ∈ d.map Prod.fst := by
  induction d with
  | nil => simp [lookupA]
  | cons kv d ih =>
    rw [lookupA_cons]
    by_cases h : kv.1 = k
    · simp [h]
    · simp [h, ih, Ne.symm h]

theorem lookupA_dictUpdate_single {α : Type} (d : List (String × α)) (k : String) (x : α) :
    lookupA (dictUpdate d [(k, x)]) k = some x := by
  induction d with
  | nil => simp [dictUpdate, lookupA]
  | cons kv d ih =>
    by_cases h : kv.1 = k
    · have h1 : lookupA [(k, x)] kv.1 = some x := by
        rw [lookupA_cons]
        simp [h.symm]
      simp only [dictUpdate, List.map_cons, List.cons_append, h1]
      rw [lookupA_cons]
      simp [h]
    · have h1 : lookupA [(k, x)] kv.1 = Option.none := by
        rw [lookupA_cons]
        simp [lookupA, Ne.symm h]
      have h2 : lookupA (kv :: d) k = lookupA d k := by
        rw [lookupA_cons]
        simp [h]
      simp only [dictUpdate, List.map_cons, List.cons_append, h1]
      rw [lookupA_cons]
      simp only [h, if_false]
      have h3 : List.filter (fun kv2 => (lookupA (kv :: d) kv2.1).isNone) [(k, x)] =
          List.filter (fun kv2 => (lookupA d kv2.1).isNone) [(k, x)] := by
        simp [List.filter, h2]
      rw [h3]
      simpa only [dictUpdate] using ih

theorem boolSelect_length : ∀ (arr : List ℚ) (mask : List Bool),
    arr.length = mask.length →
    (boolSelect arr mask).length = mask.countP (fun b => b)
  | [], [] => by intro _; simp [boolSelect]
  | [], b :: mask => by intro h; exact absurd h (by simp)
  | a :: arr, [] => by intro h; exact absurd h (by simp)
  | a :: arr, b :: mask => by
    intro h
    simp only [List.length_cons, Nat.succ.injEq] at h
    cases b with
    | true =>
      simp only [boolSelect, List.zip_cons_cons, List.filterMap_cons, if_pos] at *
      simp [List.countP_cons, ← boolSelect_length arr mask h, boolSelect]
    | false =>
      simp only [boolSelect, List.zip_cons_cons, List.filterMap_cons] at *
      simp [List.countP_cons, ← boolSelect_length arr mask h, boolSelect]

theorem mem_extractParameters (maps : String → Option (List ℚ)) (mask : List Bool) :
    ∀ (cps : List (String × Unit)) (kp : String × ParameterROI),
    kp ∈ extractParameters maps mask cps →
    ∃ arr, maps kp.1 = some arr ∧ kp.2.name = kp.1 ∧
      kp.2.values = some (boolSelect arr mask)
  | [], kp => by intro h; exact absurd h (by simp [extractParameters])
  | (pname, punit) :: rest, kp => by
    intro h
    simp only [extractParameters] at h
    cases harr : maps pname with
    | none =>
      rw [harr] at h
      exact mem_extractParameters maps mask rest kp h
    | some arr =>
      rw [harr] at h
      rcases List.mem_cons.mp h with heq | hmem
      · subst heq
        exact ⟨arr, harr, rfl, rfl⟩
      · exact mem_extractParameters maps mask rest kp hmem

theorem extractParameters_keys (maps : String → Option (List ℚ)) (mask : List Bool) :
    ∀ cps : List (String × Unit),
    (extractParameters maps mask cps).map Prod.fst =
      (cps.map Prod.fst).filter (fun pn => (maps pn).isSome)
  | [] => by simp [extractParameters]
  | (pname, punit) :: rest => by
    simp only [extractParameters, List.map_cons, List.filter_cons]
    cases harr : maps pname with
    | none => simp [extractParameters_keys maps mask rest]
    | some arr => simp [extractParameters_keys maps mask rest]

theorem paramStatistics_ok : ∀ ps : List (String × ParameterROI),
    (∀ kp ∈ ps, kp.2.values ≠ Option.none) →
    ∃ out, paramStatistics ps = .ok out
  | [] => fun _ => ⟨[], rfl⟩
  | kp :: rest => by
    intro h
    obtain ⟨out, hout⟩ := paramStatistics_ok rest (fun e he => h e (List.mem_cons_of_mem kp he))
    cases hv : kp.2.values with
    | none => exact absurd hv (h kp (List.mem_cons_self kp rest))
    | some vs =>
      exact ⟨(kp.2.name, .stats (compute_statistical_parameters vs)) :: out,
        by simp [paramStatistics, hv, hout]⟩

theorem createFrom_ok {name : String} {maps : String → Option (List ℚ)}
    {mask : List Bool} {us : UnitSpec} {color : Option String} {t : TissueROI}
    (h : TissueROI.createFrom name maps mask us color = .ok t) :
    ∃ u, resolveUnit us = .ok u ∧
      t = mkTissueROI name
            (extractParameters maps mask
              [("T1", u), ("T2", u), ("M0", Unit.none), ("IP", Unit.none)])
            (mask.map boolToInt) color := by
  cases hu : resolveUnit us with
  | error e =>
    simp only [TissueROI.createFrom, hu] at h
    exact absurd h (by simp)
  | ok u =>
    simp only [TissueROI.createFrom, hu] at h
    exact ⟨u, rfl, ((Except.ok.injEq _ _).mp h).symm⟩

theorem filter_volume_orderedInsert (v : Int) (a : TissueROI) (l : List TissueROI) :
    (List.orderedInsert byVolume a l).filter (fun t => t.volume == v) =
      if a.volume == v then a :: l.filter (fun t => t.volume == v)
      else l.filter (fun t => t.volume == v) := by
  induction l with
  | nil =>
    by_cases pa : (a.volume == v) = true <;> simp [List.orderedInsert, List.filter, pa]
  | cons b l ih =>
    simp only [List.orderedInsert]
    by_cases hab : byVolume a b
    · rw [if_pos hab]
      by_cases pa : (a.volume == v) = true <;>
        by_cases pb : (b.volume == v) = true <;>
        simp [List.filter_cons, pa, pb]
    · rw [if_neg hab]
      by_cases pb : (b.volume == v) = true
      · have pa : (a.volume == v) = false := by
          have hb : b.volume = v := by simpa using pb
          have hlt : ¬ a.volume ≤ b.volume := hab
          simp only [beq_eq_false_iff_ne]
          omega
        simp [List.filter_cons, pb, pa, ih]
      · simp [List.filter_cons, pb, ih]

theorem filter_volume_insertionSort (v : Int) (l : List TissueROI) :
    (l.insertionSort byVolume).filter (fun t => t.volume == v) =
      l.filter (fun t => t.volume == v) := by
  induction l with
  | nil => rfl
  | cons a l ih =>
    simp only [List.insertionSort]
    rw [filter_volume_orderedInsert]
    by_cases pa : (a.volume == v) = true <;> simp [List.filter_cons, pa, ih]

theorem tissuesFrom_colors (params : String → Option (List ℚ)) :
    ∀ (masks : List (String × List Bool)) (ts : List TissueROI),
    tissuesFrom params masks = .ok ts →
    ∀ t ∈ ts, t.color = getCanonicalTissueColor t.name
  | [], ts => by
    intro h t ht
    simp only [tissuesFrom] at h
    rw [← (Except.ok.injEq _ _).mp h] at ht
    exact absurd ht (by simp)
  | (tn, m) :: rest, ts => by
    intro h t ht
    simp only [tissuesFrom] at h
    cases hc : TissueROI.createFrom tn params m (.str "seconds") (getCanonicalTissueColor tn) with
    | error e =>
      rw [hc] at h
      exact absurd h (by simp)
    | ok t0 =>
      rw [hc] at h
      cases hr : tissuesFrom params rest with
      | error e =>
        rw [hr] at h
        exact absurd h (by simp)
      | ok ts0 =>
        rw [hr] at h
        rw [← (Except.ok.injEq _ _).mp h] at ht
        rcases List.mem_cons.mp ht with heq | hmem
        · subst heq
          obtain ⟨u, _, htt⟩ := createFrom_ok hc
          subst htt
          rfl
        · exact tissuesFrom_colors params rest ts0 hr t hmem

theorem compute_volume_cons (t : TissueROI) (k : String) (p : ParameterROI)
    (rest : List (String × ParameterROI)) (vs : List ℚ)
    (hp : t.parameters = (k, p) :: rest) (hv : p.values = some vs) :
    compute_volume t = .ok [("volume", .vol vs.length)] := by
  simp [compute_volume, hp, hv]

theorem volumeEntry_tissue_statistics (t : TissueROI) (k : String) (p : ParameterROI)
    (rest : List (String × ParameterROI)) (vs : List ℚ)
    (hp : t.parameters = (k, p) :: rest) (hv : p.values = some vs)
    (hall : ∀ kp ∈ t.parameters, kp.2.values ≠ Option.none) :
    volumeEntryOf (compute_tissue_statistics t) t.name = some (.vol vs.length) := by
  obtain ⟨out, hout⟩ := paramStatistics_ok t.parameters hall
  have hvol := compute_volume_cons t k p rest vs hp hv
  simp only [compute_tissue_statistics, hout, hvol, volumeEntryOf]
  rw [lookupA_cons]
  simp [lookupA_dictUpdate_single]

/-! ### Claim C4 -/

/-- C4: constructing a `Segmentation` with sort mode `decreasing` yields
adjacent volumes non-increasing, `increasing` yields them non-decreasing, and
`none` keeps the input order exactly; the applied algorithm is a stable
ascending sort by volume (a permutation of the input preserving the relative
order of equal-volume tissues), reversed for `decreasing`. -/
theorem c4_segmentation_sort (ts : List TissueROI) :
    (mkSegmentation ts SortMode.none).tissues = ts ∧
    List.Chain' (fun a b => b.volume ≤ a.volume)
      (mkSegmentation ts SortMode.decreasing).tissues ∧
    List.Chain' (fun a b => a.volume ≤ b.volume)
      (mkSegmentation ts SortMode.increasing).tissues ∧
    (mkSegmentation ts SortMode.decreasing).tissues =
      ((mkSegmentation ts SortMode.increasing).tissues).reverse ∧
    List.Perm (mkSegmentation ts SortMode.increasing).tissues ts ∧
    (∀ v : Int,
      (mkSegmentation ts SortMode.increasing).tissues.filter (fun t => t.volume == v) =
        ts.filter (fun t => t.volume == v)) := by
  have hs : List.Pairwise byVolume (ts.insertionSort byVolume) :=
    List.sorted_insertionSort byVolume ts
  refine ⟨rfl, ?_, hs.chain', rfl, List.perm_insertionSort byVolume ts,
    fun v => filter_volume_insertionSort v ts⟩
  have hrev : List.Pairwise (fun a b => b.volume ≤ a.volume)
      (ts.insertionSort byVolume).reverse := by
    rw [List.pairwise_reverse]
    exact hs
  exact hrev.chain'

/-! ### Claim C6 -/

theorem sum_eq_countP_of_binary : ∀ mask : List Int,
    (∀ x ∈ mask, x = 0 ∨ x = 1) →
    mask.sum = (mask.countP (fun x => x != 0) : Int)
  | [] => by intro _; simp
  | x :: mask => by
    intro h
    have hx := h x (List.mem_cons_self x mask)
    have hrest := sum_eq_countP_of_binary mask (fun y hy => h y (List.mem_cons_of_mem x hy))
    rcases hx with h0 | h1
    · subst h0
      simpa [List.countP_cons] using hrest
    · subst h1
      simp only [List.sum_cons, List.countP_cons, hrest]
      simp
      omega

/-- C6 counterexample: for a non-boolean mask dtype the claimed equality
between the volume attribute and the count of truthy (nonzero) entries fails:
an int mask `[2]` gives `volume = np.sum([2]) = 2` but has one truthy entry. -/
theorem c6_counterexample :
    (mkTissueROI "tissue" [] [2] Option.none).volume = 2 ∧
    ((([2] : List Int).countP (fun x => x != 0)) : Int) = 1 ∧
    (mkTissueROI "tissue" [] [2] Option.none).volume ≠
      ((([2] : List Int).countP (fun x => x != 0)) : Int) := by
  decide

/-- C6 amended: `volume` is `np.sum(mask)`, computed at construction; this
equals the count of true entries exactly for boolean (0/1-valued) masks. -/
theorem c6_amended (name : String) (ps : List (String × ParameterROI))
    (mask : List Int) (color : Option String)
    (h : ∀ x ∈ mask, x = 0 ∨ x = 1) :
    (mkTissueROI name ps mask color).volume = mask.sum ∧
    (mkTissueROI name ps mask color).volume = (mask.countP (fun x => x != 0) : Int) := by
  exact ⟨rfl, sum_eq_countP_of_binary mask h⟩

/-- C6 witness. -/
theorem c6_amended_witness :
    (mkTissueROI "cochlea" [] [0, 1, 1] Option.none).volume = ([0, 1, 1] : List Int).sum ∧
    (mkTissueROI "cochlea" [] [0, 1, 1] Option.none).volume =
      ((([0, 1, 1] : List Int).countP (fun x => x != 0)) : Int) :=
  c6_amended "cochlea" [] [0, 1, 1] Option.none (by decide)

/-! ### Claim C7 -/

/-- C7 counterexample: when the parameters mapping itself contains the key
"volume", item lookup returns the volume attribute, not the ParameterROI —
the special keys take priority, contrary to the claim. -/
theorem c7_counterexample :
    TissueROI.getitem
        (mkTissueROI "t" [("volume", ⟨"volume", some [], Unit.none⟩)] [] Option.none)
        "volume" = .ok (.volume 0) ∧
    TissueROI.getitem
        (mkTissueROI "t" [("volume", ⟨"volume", some [], Unit.none⟩)] [] Option.none)
        "volume" ≠ .ok (.param ⟨"volume", some [], Unit.none⟩) := by
  decide

/-- C7 amended: item lookup returns the special values for "mask", "name" and
"volume" (these keys take priority over identically-named parameters, because
the Python dict literal lists them after the unpacked parameters); for any
other name it returns the matching ParameterROI, or fails with a KeyError. -/
theorem c7_amended (t : TissueROI) (k : String) :
    TissueROI.getitem t "mask" = .ok (.mask t.mask) ∧
    TissueROI.getitem t "name" = .ok (.name t.name) ∧
    TissueROI.getitem t "volume" = .ok (.volume t.volume) ∧
    (k ≠ "mask" → k ≠ "name" → k ≠ "volume" →
      (∀ p, lookupA t.parameters k = some p → TissueROI.getitem t k = .ok (.param p)) ∧
      (lookupA t.parameters k = Option.none →
        TissueROI.getitem t k = .error (.keyError k))) := by
  refine ⟨rfl, by simp [TissueROI.getitem], by simp [TissueROI.getitem], ?_⟩
  intro h1 h2 h3
  constructor
  · intro p hp
    simp [TissueROI.getitem, h1, h2, h3, hp]
  · intro hp
    simp [TissueROI.getitem, h1, h2, h3, hp]

/-- C7 witness. -/
theorem c7_amended_witness :
    TissueROI.getitem
        (mkTissueROI "n" [("T1", ⟨"T1", some [7], Unit.seconds⟩)] [1] Option.none)
        "mask" = .ok (.mask [1]) ∧
    TissueROI.getitem
        (mkTissueROI "n" [("T1", ⟨"T1", some [7], Unit.seconds⟩)] [1] Option.none)
        "T1" = .ok (.param ⟨"T1", some [7], Unit.seconds⟩) ∧
    TissueROI.getitem
        (mkTissueROI "n" [("T1", ⟨"T1", some [7], Unit.seconds⟩)] [1] Option.none)
        "zz" = .error (.keyError "zz") :=
  ⟨(c7_amended (mkTissueROI "n" [("T1", ⟨"T1", some [7], Unit.seconds⟩)] [1] Option.none)
      "T1").1,
   ((c7_amended (mkTissueROI "n" [("T1", ⟨"T1", some [7], Unit.seconds⟩)] [1] Option.none)
      "T1").2.2.2 (by decide) (by decide) (by decide)).1
     ⟨"T1", some [7], Unit.seconds⟩ (by decide),
   ((c7_amended (mkTissueROI "n" [("T1", ⟨"T1", some [7], Unit.seconds⟩)] [1] Option.none)
      "zz").2.2.2 (by decide) (by decide) (by decide)).2 (by decide)⟩

/-! ### Claim C8 -/

/-- C8 counterexample: the integer lookup accepts negative indices (Python
list semantics), so the index -1, although outside [0, n), does not raise. -/
theorem c8_counterexample :
    Segmentation.getitemInt
        (mkSegmentation [mkTissueROI "a" [] [] Option.none,
          mkTissueROI "b" [] [1] Option.none] SortMode.none) (-1) =
      .ok (mkTissueROI "b" [] [1] Option.none) ∧
    Segmentation.getitemInt
        (mkSegmentation [mkTissueROI "a" [] [] Option.none,
          mkTissueROI "b" [] [1] Option.none] SortMode.none) (-1) ≠
      .error .indexError := by
  decide

/-- C8 amended: integer lookup is Python list indexing: direct positional
access for 0 ≤ i < n, access to position n + i for -n ≤ i < 0, and an
IndexError exactly when i < -n or i ≥ n. -/
theorem c8_amended (s : Segmentation) (i : Int) :
    (0 ≤ i → i < (s.tissues.length : Int) →
      Segmentation.getitemInt s i =
        .ok (s.tissues.getD i.toNat (mkTissueROI "" [] [] Option.none))) ∧
    (i < 0 → 0 ≤ i + (s.tissues.length : Int) →
      Segmentation.getitemInt s i =
        .ok (s.tissues.getD (i + (s.tissues.length : Int)).toNat
              (mkTissueROI "" [] [] Option.none))) ∧
    ((i < -(s.tissues.length : Int) ∨ (s.tissues.length : Int) ≤ i) →
      Segmentation.getitemInt s i = .error .indexError) := by
  refine ⟨?_, ?_, ?_⟩
  · intro h0 hlt
    have hadj : pyIndexAdjust s.tissues.length i = i := by
      simp [pyIndexAdjust]
      omega
    have hn : i.toNat < s.tissues.length := by omega
    simp only [Segmentation.getitemInt, pyListGet, hadj]
    rw [dif_pos ⟨h0, hlt⟩]
    rw [List.getD_eq_getElem _ _ hn]
    simp [List.get_eq_getElem]
  · intro hneg hge
    have hadj : pyIndexAdjust s.tissues.length i = i + s.tissues.length := by
      simp [pyIndexAdjust, hneg]
    have hlt : i + (s.tissues.length : Int) < (s.tissues.length : Int) := by omega
    have hn : (i + (s.tissues.length : Int)).toNat < s.tissues.length := by omega
    simp only [Segmentation.getitemInt, pyListGet, hadj]
    rw [dif_pos ⟨hge, hlt⟩]
    rw [List.getD_eq_getElem _ _ hn]
    simp [List.get_eq_getElem]
  · intro hout
    have hadj : ¬ (0 ≤ pyIndexAdjust s.tissues.length i ∧
        pyIndexAdjust s.tissues.length i < (s.tissues.length : Int)) := by
      simp only [pyIndexAdjust]
      split <;> omega
    simp only [Segmentation.getitemInt, pyListGet]
    rw [dif_neg hadj]

/-- C8 witness. -/
theorem c8_amended_witness :
    Segmentation.getitemInt
        (mkSegmentation [mkTissueROI "a" [] [] Option.none,
          mkTissueROI "b" [] [1] Option.none] SortMode.none) 1 =
      .ok (mkTissueROI "b" [] [1] Option.none) ∧
    Segmentation.getitemInt
        (mkSegmentation [mkTissueROI "a" [] [] Option.none,
          mkTissueROI "b" [] [1] Option.none] SortMode.none) (-2) =
      .ok (mkTissueROI "a" [] [] Option.none) ∧
    Segmentation.getitemInt
        (mkSegmentation [mkTissueROI "a" [] [] Option.none,
          mkTissueROI "b" [] [1] Option.none] SortMode.none) 5 =
      .error .indexError :=
  ⟨(c8_amended _ 1).1 (by decide) (by decide),
   (c8_amended _ (-2)).2.1 (by decide) (by decide),
   (c8_amended _ 5).2.2 (by decide)⟩

/-! ### Claim C2 -/

/-- C2 counterexample: `TissueROI.create_from` called without an explicit
color does NOT resolve the canonical color — it stores null — although the
canonical lookup for "Cochlea" resolves. -/
theorem c2_counterexample :
    TissueROI.createFrom "Cochlea" (fun _ => Option.none) [] (.str "seconds") Option.none =
      .ok (mkTissueROI "Cochlea" [] [] Option.none) ∧
    (mkTissueROI "Cochlea" [] [] Option.none).color = Option.none ∧
    getCanonicalTissueColor "Cochlea" = some "#80ae80" := by
  decide

/-- C2 amended: `TissueROI.create_from` stores the supplied color argument
unchanged (null when omitted); the canonical case-insensitive lookup is
performed by `Segmentation.create_from`, which resolves each tissue's color via
`get_canonical_tissue_color` and passes it down explicitly; an unmatched name
yields null (with a non-fatal warning). -/
theorem c2_amended :
    (∀ (n : String) (maps : String → Option (List ℚ)) (mask : List Bool)
        (us : UnitSpec) (c : Option String) (t : TissueROI),
      TissueROI.createFrom n maps mask us c = .ok t → t.color = c) ∧
    (∀ (params : String → Option (List ℚ)) (masks : List (String × List Bool))
        (s : Segmentation),
      Segmentation.createFrom params masks = .ok s →
      ∀ t ∈ s.tissues, t.color = getCanonicalTissueColor t.name) ∧
    getCanonicalTissueColor "Cochlea" = some "#80ae80" ∧
    getCanonicalTissueColor "unknown_tissue" = Option.none := by
  refine ⟨?_, ?_, by decide, by decide⟩
  · intro n maps mask us c t ht
    obtain ⟨u, _, htt⟩ := createFrom_ok ht
    subst htt
    rfl
  · intro params masks s hs t ht
    cases hts : tissuesFrom params masks with
    | error e =>
      simp only [Segmentation.createFrom, hts] at hs
      exact absurd hs (by simp)
    | ok ts =>
      simp only [Segmentation.createFrom, hts] at hs
      rw [← (Except.ok.injEq _ _).mp hs] at ht
      have hmem : t ∈ ts := by
        have h1 : t ∈ (ts.insertionSort byVolume).reverse := ht
        rw [List.mem_reverse] at h1
        exact (List.mem_insertionSort byVolume).mp h1
      exact tissuesFrom_colors params masks ts hts t hmem

/-- C2 witness. -/
theorem c2_amended_witness :
    (mkTissueROI "x" [] [] (some "red")).color = some "red" ∧
    (mkTissueROI "Cochlea" [] [1] (some "#80ae80")).color =
      getCanonicalTissueColor (mkTissueROI "Cochlea" [] [1] (some "#80ae80")).name :=
  ⟨c2_amended.1 "x" (fun _ => Option.none) [] (.str "seconds") (some "red")
      (mkTissueROI "x" [] [] (some "red")) (by decide),
   c2_amended.2.1 (fun _ => Option.none) [("Cochlea", [true])]
      (mkSegmentation [mkTissueROI "Cochlea" [] [1] (some "#80ae80")] SortMode.decreasing)
      (by decide) (mkTissueROI "Cochlea" [] [1] (some "#80ae80")) (by decide)⟩

/-! ### Claim C9 -/

/-- C9: when selecting a canonical parameter's array fails (key absent, or the
maps object not indexable — both modelled as a `none` lookup), that parameter
is skipped entirely: the factory still returns a TissueROI without raising,
and the parameters mapping holds a key exactly for each canonical parameter
whose array selection succeeded. -/
theorem c9_missing_parameter_skipped (name : String) (maps : String → Option (List ℚ))
    (mask : List Bool) (us : UnitSpec) (color : Option String) (u : Unit)
    (hu : resolveUnit us = .ok u) :
    TissueROI.createFrom name maps mask us color =
      .ok (mkTissueROI name
            (extractParameters maps mask
              [("T1", u), ("T2", u), ("M0", Unit.none), ("IP", Unit.none)])
            (mask.map boolToInt) color) ∧
    ∀ pn : String,
      (lookupA (extractParameters maps mask
          [("T1", u), ("T2", u), ("M0", Unit.none), ("IP", Unit.none)]) pn).isSome = true ↔
        ((pn = "T1" ∨ pn = "T2" ∨ pn = "M0" ∨ pn = "IP") ∧ (maps pn).isSome = true) := by
  constructor
  · simp [TissueROI.createFrom, hu]
  · intro pn
    rw [lookupA_isSome, extractParameters_keys]
    simp only [List.map_cons, List.map_nil]
    rw [List.mem_filter]
    simp [List.mem_cons]

/-- C9 witness: a maps mapping holding only "T1" — "M0" is skipped without an
error while "T1" is still extracted. -/
theorem c9_witness :
    TissueROI.createFrom "x" (fun s => if s = "T1" then some [(5 : ℚ)] else Option.none)
        [true] (.str "seconds") Option.none =
      .ok (mkTissueROI "x"
            (extractParameters (fun s => if s = "T1" then some [(5 : ℚ)] else Option.none)
              [true]
              [("T1", Unit.seconds), ("T2", Unit.seconds), ("M0", Unit.none), ("IP", Unit.none)])
            ([true].map boolToInt) Option.none) ∧
    ((lookupA (extractParameters (fun s => if s = "T1" then some [(5 : ℚ)] else Option.none)
        [true]
        [("T1", Unit.seconds), ("T2", Unit.seconds), ("M0", Unit.none), ("IP", Unit.none)])
        "M0").isSome = true ↔
      (("M0" = "T1" ∨ "M0" = "T2" ∨ "M0" = "M0" ∨ "M0" = "IP") ∧
        ((fun s => if s = "T1" then some [(5 : ℚ)] else Option.none) "M0").isSome = true)) :=
  ⟨(c9_missing_parameter_skipped "x"
      (fun s => if s = "T1" then some [(5 : ℚ)] else Option.none)
      [true] (.str "seconds") Option.none Unit.seconds rfl).1,
   (c9_missing_parameter_skipped "x"
      (fun s => if s = "T1" then some [(5 : ℚ)] else Option.none)
      [true] (.str "seconds") Option.none Unit.seconds rfl).2 "M0"⟩

/-! ### Claim C5 -/

/-- C5: for a boolean mask and a parameter array of matching shape present in
the maps mapping, the extracted ParameterROI's values are the masked entries,
and their count is exactly the number of true entries of the mask. -/
theorem c5_values_length (name : String) (maps : String → Option (List ℚ))
    (mask : List Bool) (us : UnitSpec) (color : Option String) (t : TissueROI)
    (ht : TissueROI.createFrom name maps mask us color = .ok t)
    (kp : String × ParameterROI) (hkp : kp ∈ t.parameters)
    (arr : List ℚ) (ha : maps kp.1 = some arr) (hlen : arr.length = mask.length) :
    kp.2.values = some (boolSelect arr mask) ∧
    (boolSelect arr mask).length = mask.countP (fun b => b) := by
  obtain ⟨u, _, htt⟩ := createFrom_ok ht
  subst htt
  obtain ⟨arr2, ha2, _, hvals⟩ := mem_extractParameters maps mask _ kp hkp
  rw [ha] at ha2
  injection ha2 with harr
  subst harr
  exact ⟨hvals, boolSelect_length arr mask hlen⟩

/-- C5 witness. -/
theorem c5_values_length_witness :
    (⟨"T1", some [(10 : ℚ), 30], Unit.seconds⟩ : ParameterROI).values =
      some (boolSelect [(10 : ℚ), 20, 30] [true, false, true]) ∧
    (boolSelect [(10 : ℚ), 20, 30] [true, false, true]).length =
      ([true, false, true] : List Bool).countP (fun b => b) :=
  c5_values_length "x" (fun s => if s = "T1" then some [(10 : ℚ), 20, 30] else Option.none)
    [true, false, true] (.str "seconds") Option.none
    (mkTissueROI "x" [("T1", ⟨"T1", some [(10 : ℚ), 30], Unit.seconds⟩)] [1, 0, 1] Option.none)
    (by decide)
    ("T1", ⟨"T1", some [(10 : ℚ), 30], Unit.seconds⟩) (by decide)
    [(10 : ℚ), 20, 30] (by decide) (by decide)

/-! ### Claim C3 -/

/-- C3 counterexample: on the empty values array `compute_statistic` raises
(the `np.max` reduction of a zero-size array raises ValueError) instead of
returning NaN statistics without an error. -/
theorem c3_counterexample :
    compute_statistic ([] : List ℚ) = .error .valueError := by
  decide

/-- C3 amended: on a zero-length values array `np.mean` and `np.std(ddof=1)`
evaluate to NaN (with warnings), but the `np.max`/`np.min` reductions raise
ValueError, so`compute_statistic` raises rather than returning a NaN-filled
statistics mapping; the median/quantile entries are never reached. -/
theorem c3_amended :
    compute_statistic ([] : List ℚ) = .error .valueError ∧
    np_mean [] = .nan ∧
    np_std_ddof1 [] = .nan ∧
    np_max [] = .error .valueError ∧
    np_min [] = .error .valueError := by
  decide

/-! ### Claim C10 -/

/-- C10: for a TissueROI with an empty parameters mapping (which the factory
tolerates), `compute_tissue_statistics` and `compute_statistics` fail with
StopIteration from `next(iter(tissue))` in `compute_volume` instead of
returning a statistics mapping. -/
theorem c10_empty_parameters (t : TissueROI) (h : t.parameters = []) :
    compute_tissue_statistics t = .error .stopIteration ∧
    compute_statistics (.tissue t) = .error .stopIteration := by
  have h1 : compute_tissue_statistics t = .error .stopIteration := by
    simp [compute_tissue_statistics, paramStatistics, h, compute_volume]
  exact ⟨h1, h1⟩

/-- C10 witness: a tissue built by the factory from a maps mapping holding
none of the four canonical parameters. -/
theorem c10_empty_parameters_witness :
    TissueROI.createFrom "cochlea" (fun _ => Option.none) [true] (.str "seconds")
        Option.none = .ok (mkTissueROI "cochlea" [] [1] Option.none) ∧
    compute_tissue_statistics (mkTissueROI "cochlea" [] [1] Option.none) =
      .error .stopIteration ∧
    compute_statistics (.tissue (mkTissueROI "cochlea" [] [1] Option.none)) =
      .error .stopIteration :=
  ⟨by decide,
   (c10_empty_parameters (mkTissueROI "cochlea" [] [1] Option.none) (by decide)).1,
   (c10_empty_parameters (mkTissueROI "cochlea" [] [1] Option.none) (by decide)).2⟩

/-! ### Claim C1 -/

/-- C1: for a factory-built TissueROI whose parameters mapping is nonempty
(first entry in canonical insertion order `(k, p)` with values `vs`), the
"volume" entry of the `compute_statistics` output equals `vs.size`, the
element count of the first parameter's values array; the same holds with the
tissue's volume attribute replaced by an arbitrary value `w`, showing the
entry is computed from the array and not read from the mask-sum attribute. -/
theorem c1_statistics_volume (name : String) (maps : String → Option (List ℚ))
    (mask : List Bool) (us : UnitSpec) (color : Option String) (t : TissueROI)
    (ht : TissueROI.createFrom name maps mask us color = .ok t)
    (k : String) (p : ParameterROI) (rest : List (String × ParameterROI))
    (hp : t.parameters = (k, p) :: rest) (vs : List ℚ) (hv : p.values = some vs) :
    volumeEntryOf (compute_statistics (.tissue t)) t.name = some (.vol vs.length) ∧
    ∀ w : Int,
      volumeEntryOf (compute_statistics
        (.tissue ⟨t.name, t.parameters, t.mask, w, t.color⟩)) t.name =
        some (.vol vs.length) := by
  obtain ⟨u, _, htt⟩ := createFrom_ok ht
  have hall : ∀ kp ∈ t.parameters, kp.2.values ≠ Option.none := by
    intro kp hkp
    rw [htt] at hkp
    obtain ⟨arr, _, _, hvals⟩ := mem_extractParameters maps mask _ kp hkp
    simp [hvals]
  constructor
  · exact volumeEntry_tissue_statistics t k p rest vs hp hv hall
  · intro w
    exact volumeEntry_tissue_statistics ⟨t.name, t.parameters, t.mask, w, t.color⟩
      k p rest vs hp hv hall

/-- C1 witness: a tissue holding T2 and M0; the first iterated parameter is T2
with two masked values, so the volume entry is 2 — also when the volume
attribute is overwritten with 42. -/
theorem c1_statistics_volume_witness :
    volumeEntryOf (compute_statistics (.tissue (mkTissueROI "c"
        [("T2", ⟨"T2", some [(1 : ℚ), 2], Unit.seconds⟩),
         ("M0", ⟨"M0", some [(4 : ℚ), 5], Unit.none⟩)] [1, 1, 0] Option.none))) "c" =
      some (.vol 2) ∧
    volumeEntryOf (compute_statistics (.tissue
        (⟨"c", [("T2", ⟨"T2", some [(1 : ℚ), 2], Unit.seconds⟩),
          ("M0", ⟨"M0", some [(4 : ℚ), 5], Unit.none⟩)], [1, 1, 0], 42,
          Option.none⟩ : TissueROI))) "c" = some (.vol 2) :=
  ⟨(c1_statistics_volume "c"
      (fun s => if s = "T2" then some [(1 : ℚ), 2, 3]
        else if s = "M0" then some [(4 : ℚ), 5, 6] else Option.none)
      [true, true, false] (.str "seconds") Option.none
      (mkTissueROI "c"
        [("T2", ⟨"T2", some [(1 : ℚ), 2], Unit.seconds⟩),
         ("M0", ⟨"M0", some [(4 : ℚ), 5], Unit.none⟩)] [1, 1, 0] Option.none)
      (by decide) "T2" ⟨"T2", some [(1 : ℚ), 2], Unit.seconds⟩
      [("M0", ⟨"M0", some [(4 : ℚ), 5], Unit.none⟩)] (by decide)
      [(1 : ℚ), 2] (by decide)).1,
   (c1_statistics_volume "c"
      (fun s => if s = "T2" then some [(1 : ℚ), 2, 3]
        else if s = "M0" then some [(4 : ℚ), 5, 6] else Option.none)
      [true, true, false] (.str "seconds") Option.none
      (mkTissueROI "c"
        [("T2", ⟨"T2", some [(1 : ℚ), 2], Unit.seconds⟩),
         ("M0", ⟨"M0", some [(4 : ℚ), 5], Unit.none⟩)] [1, 1, 0] Option.none)
      (by decide) "T2" ⟨"T2", some [(1 : ℚ), 2], Unit.seconds⟩
      [("M0", ⟨"M0", some [(4 : ℚ), 5], Unit.none⟩)] (by decide)
      [(1 : ℚ), 2] (by decide)).2 42⟩

end Quantools
